import Mathlib

/-
Verification of the React-JS-Interview-Topics repository notes.

The repository is a corpus of 38 JavaScript study-note files.  The pieces of
executable logic that the claims concern are embedded here shallowly:

* the EventEmitter class of
  src/2Component-Communication/2Callback-Functions-(Child-Parent).js
  (its mutable events object is treated by explicit state passing, and the
  JavaScript property-lookup semantics of a plain object literal, including
  properties inherited from Object.prototype, is made explicit);
* the selector hook useUserName and the Mediator, Subject and PubSub
  pattern classes of src/2Component-Communication/9Advanced-Patterns.js;
* every component of the corpus that receives a props object (the census
  propsComponents), each embedded as a function from the props object and
  the hook or state environment to the rendered tree and the props object
  after the call;
* the counter reducer of
  src/3State-And-LifeCycles/1UseState-UseReducer-When-To-Use-Which.js and the
  textually repeated reducer inside CounterWithReducer of src/unnamed/part_004,
  with count arithmetic as IEEE-754 double arithmetic on integer values
  (roundToDouble);
* a table of the 38 files, recording for each file its verbatim
  question-and-answer heading lines and its import specifiers, for the
  corpus-level claims.

Fallible JavaScript evaluation is modelled with Except: a thrown TypeError
becomes the error value.
-/

namespace ReactNotes

/-- The only JavaScript exception kind the embedded snippets can raise. -/
inductive JSErr where
  | typeError
  deriving DecidableEq, Repr

/-- Own property keys of Object.prototype.  A plain object literal created by
an object initializer inherits these members; each of them is a function or
object value (truthy, and with no push or forEach method). -/
def objectPrototypeKeys : List String :=
  ["constructor", "hasOwnProperty", "isPrototypeOf", "propertyIsEnumerable",
   "toLocaleString", "toString", "valueOf", "__defineGetter__",
   "__defineSetter__", "__lookupGetter__", "__lookupSetter__", "__proto__"]

/-- Assignment of an own property on a plain JavaScript object: replace the
binding if the key is already an own property, otherwise add it (insertion
order, as JavaScript does). -/
def setOwn (es : List (String × β)) (k : String) (v : β) :
    List (String × β) :=
  match es with
  | [] => [(k, v)]
  | (k1, v1) :: rest =>
      if k1 = k then (k, v) :: rest else (k1, v1) :: setOwn rest k v

/-- State of an EventEmitter instance from
src/2Component-Communication/2Callback-Functions-(Child-Parent).js lines
144-161: the own properties of the events object, each holding the array of
registered callbacks.  Callbacks are opaque values of a parameter type. -/
structure EventEmitter (α : Type) where
  events : List (String × List α)
  deriving DecidableEq, Repr

/-- Constructor body on line 146: this.events is an empty object literal. -/
def EventEmitter.new : EventEmitter α := ⟨[]⟩

/-- Method on(event, callback), lines 150-153:
if (!this.events[event]) this.events[event] = [];
this.events[event].push(callback);
Property read this.events[event] yields the own array if present, else an
inherited Object.prototype member (truthy, no push method) if the key
collides with one, else undefined (falsy).  Calling push on an inherited
member throws a TypeError. -/
def EventEmitter.on (st : EventEmitter α) (event : String) (callback : α) :
    Except JSErr (EventEmitter α) :=
  let st1 : EventEmitter α :=
    match st.events.lookup event with
    | some _ => st
    | none =>
        if event ∈ objectPrototypeKeys then st
        else ⟨setOwn st.events event []⟩
  match st1.events.lookup event with
  | some cbs => .ok ⟨setOwn st1.events event (cbs ++ [callback])⟩
  | none => .error .typeError

/-- Method emit(event, data), lines 156-160:
if (this.events[event]) this.events[event].forEach((callback) => callback(data));
The result records the list of callback invocations (callback, data) in
order, a TypeError when forEach is called on an inherited non-array member,
and the (unchanged) emitter state. -/
def EventEmitter.emit (st : EventEmitter α) (event : String) (data : δ) :
    (List (α × δ) × Option JSErr) × EventEmitter α :=
  match st.events.lookup event with
  | some cbs => ((cbs.map fun c => (c, data), none), st)
  | none =>
      if event ∈ objectPrototypeKeys then (([], some .typeError), st)
      else (([], none), st)

/-- Sequential registration of a list of callbacks for one event, each via
on, in order; stops at the first thrown TypeError. -/
def registerAll (st : EventEmitter α) (event : String) (cbs : List α) :
    Except JSErr (EventEmitter α) :=
  cbs.foldlM (fun s c => s.on event c) st

/-- Top-level binding on line 163 of the same file:
export const globalEmitter = new EventEmitter(); -/
def globalEmitter : EventEmitter Nat := EventEmitter.new

/-- State of a Mediator instance from
src/2Component-Communication/9Advanced-Patterns.js lines 28-42: the own
properties of the handlers object, each holding one handler (handlers are
opaque values).  A top-level instance mediator is created on line 45 and
mutated by the module-level register call on line 47. -/
structure Mediator (α : Type) where
  handlers : List (String × α)
  deriving DecidableEq, Repr

/-- Method register(event, handler), line 33-35: a plain own-property
assignment this.handlers[event] = handler (an assignment shadows inherited
members and cannot throw). -/
def Mediator.register (m : Mediator α) (event : String) (handler : α) :
    Mediator α :=
  ⟨setOwn m.handlers event handler⟩

/-- Method send(event, data), lines 37-41: if the property read is truthy,
the handler is called with the datum.  The result lists the registered
handlers invoked (at an unshadowed inherited Object.prototype key the
truthy inherited function is called instead; no registered handler is
invoked and nothing throws, since inherited members are callable). -/
def Mediator.send (m : Mediator α) (event : String) (data : δ) :
    List (α × δ) :=
  match m.handlers.lookup event with
  | some h => [(h, data)]
  | none => []

/-- State of a Subject instance from the same file, lines 69-82: the
observers array.  A top-level instance subject is created on line 84 and
mutated by the two module-level subscribe calls. -/
structure Subject (α : Type) where
  observers : List α
  deriving DecidableEq, Repr

/-- Method subscribe(observer), lines 74-76: this.observers.push(observer). -/
def Subject.subscribe (s : Subject α) (observer : α) : Subject α :=
  ⟨s.observers ++ [observer]⟩

/-- Method notify(data), lines 78-80: forEach over the observers array. -/
def Subject.notify (s : Subject α) (data : δ) : List (α × δ) :=
  s.observers.map fun o => (o, data)

/-- State of a PubSub instance from the same file, lines 110-123: the own
properties of the events object, each an array of handlers.  A top-level
instance pubsub is created on line 128 and mutated by the two module-level
subscribe calls. -/
structure PubSub (α : Type) where
  events : List (String × List α)
  deriving DecidableEq, Repr

/-- Method subscribe(event, handler), lines 115-118, textually the same
body as EventEmitter.on: create the own array when the property read is
falsy, then push (a TypeError at an unshadowed inherited member, exactly as
for on). -/
def PubSub.subscribe (st : PubSub α) (event : String) (handler : α) :
    Except JSErr (PubSub α) :=
  let st1 : PubSub α :=
    match st.events.lookup event with
    | some _ => st
    | none =>
        if event ∈ objectPrototypeKeys then st
        else ⟨setOwn st.events event []⟩
  match st1.events.lookup event with
  | some hs => .ok ⟨setOwn st1.events event (hs ++ [handler])⟩
  | none => .error .typeError

/-- Method publish(event, data), lines 120-122, textually the same body as
EventEmitter.emit. -/
def PubSub.publish (st : PubSub α) (event : String) (data : δ) :
    (List (α × δ) × Option JSErr) × PubSub α :=
  match st.events.lookup event with
  | some hs => ((hs.map fun h => (h, data), none), st)
  | none =>
      if event ∈ objectPrototypeKeys then (([], some .typeError), st)
      else (([], none), st)

/-- The user object of the UserProvider initial state in
src/2Component-Communication/9Advanced-Patterns.js lines 218-222. -/
structure User where
  name : String
  age : Int
  theme : String
  deriving DecidableEq, Repr

/-- The context value published by UserProvider (the setUser slot carries no
data relevant to the selector and is omitted).  The context default created
by createContext(null) is modelled as none. -/
structure UserContextValue where
  user : User
  deriving DecidableEq, Repr

/-- Selector hook useUserName, lines 232-235 of 9Advanced-Patterns.js:
const v = useContext(UserContext); destructuring const (\x7b user \x7d) = v
throws a TypeError when the context value is null, else it returns
user.name. -/
def useUserName (ctx : Option UserContextValue) : Except JSErr String :=
  match ctx with
  | none => .error .typeError
  | some v => .ok v.user.name

/-- Bit length of a natural number.  The recursion is bounded by explicit
fuel so that it unfolds step by step in the kernel; 1100 exceeds the binary
exponent range of IEEE-754 doubles, so the fuel never runs out on any double
value. -/
def bitLenAux : Nat → Nat → Nat
  | 0, _ => 0
  | fuel + 1, n => if n = 0 then 0 else bitLenAux fuel (n / 2) + 1

/-- Bit length of a natural number. -/
def bitLen (n : Nat) : Nat := bitLenAux 1100 n

/-- Rounding a nonnegative integer value to the nearest integer exactly
representable as an IEEE-754 double (round to nearest, ties to even).
Below 2 ^ 53 every integer is representable and the value is unchanged;
in the binade of a larger value the representable integers are the
multiples of 2 ^ (bitLen - 53). -/
def roundNatDouble (a : Nat) : Nat :=
  if a ≤ 2 ^ 53 then a
  else
    let e := bitLen a - 53
    let p := 2 ^ e
    let q := a / p
    let r := a % p
    if 2 * r < p then q * p
    else if p < 2 * r then (q + 1) * p
    else if q % 2 = 0 then q * p else (q + 1) * p

/-- Rounding an integer value to double precision, sign-symmetrically.
JavaScript numbers are IEEE-754 doubles, so the result of an exact integer
sum is this rounding of it.  (Overflow to infinity near 2 ^ 1024 is beyond
every count value these notes compute and is not modelled.) -/
def roundToDouble (x : Int) : Int :=
  if x < 0 then -(roundNatDouble x.natAbs : Int) else (roundNatDouble x.natAbs : Int)

/-- Counter state of the useReducer examples: an object with one field
count holding an integer-valued JavaScript number (an IEEE-754 double,
modelled by its exact integer value). -/
structure CounterState where
  count : Int
  deriving DecidableEq, Repr

/-- Action objects as inspected by the reducers: only the type field is
read. -/
structure Action where
  type : String
  deriving DecidableEq, Repr

/-- Top-level reducer of
src/3State-And-LifeCycles/1UseState-UseReducer-When-To-Use-Which.js
lines 59-70: a switch on action.type.  The source expressions
state.count + 1 and state.count - 1 are JavaScript double arithmetic: the
exact integer result rounded to the nearest representable double. -/
def reducer (state : CounterState) (action : Action) : CounterState :=
  match action.type with
  | "increment" => ⟨roundToDouble (state.count + 1)⟩
  | "decrement" => ⟨roundToDouble (state.count - 1)⟩
  | "reset" => ⟨0⟩
  | _ => state

/-- Top-level initialState of the same file, line 57. -/
def initialState : CounterState := ⟨0⟩

namespace CounterWithReducer

/-- Local initialState inside CounterWithReducer in src/unnamed/part_004,
line 48. -/
def initialState : CounterState := ⟨0⟩

/-- Reducer defined inside CounterWithReducer in src/unnamed/part_004,
lines 50-61, textually identical to the top-level reducer, with the same
double arithmetic on count. -/
def reducer (state : CounterState) (action : Action) : CounterState :=
  match action.type with
  | "increment" => ⟨roundToDouble (state.count + 1)⟩
  | "decrement" => ⟨roundToDouble (state.count - 1)⟩
  | "reset" => ⟨0⟩
  | _ => state

end CounterWithReducer

/-- Corpus-level record of one source file: its path below src/, the
verbatim lines of the file carrying the question-and-answer heading marker
Q & A, and the module specifiers of its import statements (static
from-clauses and dynamic import calls, in order of appearance;
commented-out illustrative module references are prose and not recorded). -/
structure SourceFile where
  name : String
  qaLines : List String
  imports : List String
  deriving DecidableEq, Repr

/-- Containment of a pattern as a contiguous run inside a character list. -/
def hasMarker (pat : List Char) : List Char → Bool
  | [] => pat.isEmpty
  | c :: rest => pat.isPrefixOf (c :: rest) || hasMarker pat rest

/-- A file has a question-and-answer footer when some line of it carries the
"Q & A" heading marker. -/
def hasQAFooter (f : SourceFile) : Bool :=
  f.qaLines.any fun l => hasMarker "Q & A".toList l.toList

/-- A module specifier is relative when it starts with ./ or ../ (otherwise
it is a bare specifier naming an external package). -/
def isRelativeSpecifier (s : String) : Bool :=
  match s.toList with
  | '.' :: '/' :: _ => true
  | '.' :: '.' :: '/' :: _ => true
  | _ => false

/-- Directory part of a repository-relative path: everything before the
last slash. -/
def dirOf (path : String) : String :=
  ⟨(((path.toList.reverse.dropWhile fun c => c ≠ '/').drop 1).reverse)⟩

/-- Resolution of a dot-slash relative specifier against the directory of
the importing file, appending the .js extension when absent. -/
def resolveRel (importer : String) (spec : String) : String :=
  let stripped : String :=
    match spec.toList with
    | '.' :: '/' :: rest => ⟨rest⟩
    | _ => spec
  let withExt : String :=
    if ".js".toList.isSuffixOf stripped.toList then stripped
    else stripped ++ ".js"
  dirOf importer ++ "/" ++ withExt

/-- The 38 source files of the repository, transcribed: path below src/,
verbatim lines containing the "Q & A" heading marker, and import
specifiers in order of appearance. -/
def srcFiles : List SourceFile := [
  { name := "1React-Fundamentals/10Security-Preventing-Unsafe-Rendering-With-\u0060dangerouslySetInnerHTML\u0060.js",
    qaLines := [" * \u2753 Q & A Section (Interview Style)", "\u2753 Q & A Section (Interview Style)"],
    imports := ["dompurify", "react"] },
  { name := "1React-Fundamentals/3Class-Component-Vs-Functional-Component.js",
    qaLines := ["\u2753 Q & A Section (Interview Style)"],
    imports := ["react"] },
  { name := "1React-Fundamentals/4Props-Vs-State-Immutability-Data-Flow.js",
    qaLines := ["\u2753 Q & A Section (Interview Style)"],
    imports := ["react"] },
  { name := "1React-Fundamentals/7Keys-In-Lists-Why-Important-Impact-On-Reconciliation.js",
    qaLines := ["\u2753 Q & A Section (Interview Style)", "\u2753 Q & A Section (Interview Style)"],
    imports := [] },
  { name := "1React-Fundamentals/8Performance-Minimizing-Re-Renders-In-Lists.js",
    qaLines := ["\u2753 Q & A Section (Interview Style)"],
    imports := ["react", "react", "react-window"] },
  { name := "2Component-Communication/1Passing-Props-(Parent-Child).js",
    qaLines := [" * \u2753 Q & A Section (Interview Style)", " * \u2753 Q & A Section (Interview Style)"],
    imports := [] },
  { name := "2Component-Communication/2Callback-Functions-(Child-Parent).js",
    qaLines := [" * \u2753 Q & A Section (Interview Style)", " * Q & A (Interview Style)"],
    imports := ["react"] },
  { name := "2Component-Communication/6Controlled-Vs-Uncontrolled-Components.js",
    qaLines := [" * Q & A (Interview Style)"],
    imports := ["react"] },
  { name := "2Component-Communication/9Advanced-Patterns.js",
    qaLines := [" * Q & A (Interview Style)", " * Q & A (Interview Style)"],
    imports := ["react"] },
  { name := "3State-And-LifeCycles/1UseState-UseReducer\u2013When-To-Use-Which.js",
    qaLines := [" * Q & A (Interview Style)"],
    imports := ["react"] },
  { name := "3State-And-LifeCycles/2Class-Lifecycle-Methods-And-Equivalent-Hooks.js",
    qaLines := ["\u00e2\u201c Q & A Section"],
    imports := ["react"] },
  { name := "3State-And-LifeCycles/3Derived-State-Pitfalls-And-Alternatives.js",
    qaLines := ["\u2753 Q & A Section"],
    imports := ["react"] },
  { name := "3State-And-LifeCycles/6Avoiding-Stale-Closures-And-State-Splits.js",
    qaLines := ["\u2753 Q & A Section"],
    imports := ["react", "react"] },
  { name := "3State-And-LifeCycles/8Security-Preventing-Sensitive-Data-Leakage-In-Client-State.js",
    qaLines := ["\u2753 Q & A Section"],
    imports := [] },
  { name := "4React-Hooks-(DeepDive)/11Future-Async-Context-API-Proposal.js",
    qaLines := ["Q & A Section"],
    imports := ["react"] },
  { name := "4React-Hooks-(DeepDive)/2UseCallback-Vs-UseMemo\u2013When-And-Why.js",
    qaLines := ["\u2753 Q & A"],
    imports := ["react"] },
  { name := "4React-Hooks-(DeepDive)/6Custom-Hooks-Reusability-And-Encapsulation.js",
    qaLines := ["\u2753 Q & A Section", "\u2753 Q & A"],
    imports := ["react", "react", "react"] },
  { name := "4React-Hooks-(DeepDive)/7React-18+Hooks-UseId-UseTransition-UseDeferredValue.js",
    qaLines := ["\u2753 Q & A Section"],
    imports := ["react"] },
  { name := "4React-Hooks-(DeepDive)/8React-19+UseOptimistic-UseActionState.js",
    qaLines := ["\u2753 Q & A Section"],
    imports := ["react"] },
  { name := "4React-Hooks-(DeepDive)/9Performance-Concurrent-Rendering-With-Hooks.js",
    qaLines := [],
    imports := ["react", "react", "react"] },
  { name := "5Rendering-And-Performance/10Security-Preventing-Unsafe-Rehydration-And-DOM-Injections.js",
    qaLines := [],
    imports := ["react", "dompurify"] },
  { name := "5Rendering-And-Performance/2PureComponent-Vs-Memoization-Vs-UseCallback.js",
    qaLines := [],
    imports := ["react", "react", "react"] },
  { name := "5Rendering-And-Performance/3Avoiding-Unnecessary-Re-Renders-With-Selectors-And-Memoization.js",
    qaLines := [],
    imports := ["reselect", "react"] },
  { name := "5Rendering-And-Performance/4Virtualization-(React-Window-And-React-Virtualized).js",
    qaLines := [],
    imports := ["react-window", "react-virtualized"] },
  { name := "5Rendering-And-Performance/6Concurrent-Rendering-Automatic-Batching-Transitions.js",
    qaLines := ["\u2753 Q & A Section"],
    imports := ["react", "react", "react"] },
  { name := "5Rendering-And-Performance/7Profiling-With-React-DevTools-Profiler-And-Flamegraphs.js",
    qaLines := ["\u2753 Q & A Section"],
    imports := ["react", "react", "react", "react", "./Profile", "@tanstack/react-query", "react", "@tanstack/react-query", "./SpendingChart", "react", "./Dashboard", "./Settings"] },
  { name := "All-ReactJS-Interview-Prepration-Topics.js",
    qaLines := [],
    imports := [] },
  { name := "unnamed/part_000",
    qaLines := ["\u2753 Q & A Section (Interview Style)"],
    imports := [] },
  { name := "unnamed/part_001",
    qaLines := ["\u2753 Q & A Section (Interview Style)"],
    imports := [] },
  { name := "unnamed/part_002",
    qaLines := ["Q & A Section"],
    imports := ["react", "react", "react", "react-dom/server", "express", "./App.js", "lru-cache"] },
  { name := "unnamed/part_003",
    qaLines := ["\u2753 Q & A Section"],
    imports := ["react"] },
  { name := "unnamed/part_004",
    qaLines := ["\u2753 Q & A"],
    imports := ["react"] },
  { name := "unnamed/part_005",
    qaLines := [],
    imports := ["react"] },
  { name := "unnamed/part_006",
    qaLines := ["\u2753 Q & A Section"],
    imports := ["react"] },
  { name := "unnamed/part_007",
    qaLines := ["\u2753 Q & A Section"],
    imports := ["react"] },
  { name := "unnamed/part_008",
    qaLines := ["\u2753 Q & A Section"],
    imports := ["react", "react"] },
  { name := "unnamed/part_009",
    qaLines := [" * Q & A (Interview Style)"],
    imports := ["react", "prop-types"] },
  { name := "unnamed/part_010",
    qaLines := [" * \u2753 Q & A Section (Interview Style)"],
    imports := [] }
]


/-! Shallow embedding of the props-taking components of the corpus.
Each component is embedded as a function from a props object and an
environment (the hook-provided or class-state values read during the
render, named as in the source) to the rendered element tree paired with
the props object as it stands after the call.  Event-handler arrow
functions are represented by the prop/state values they close over and are
never invoked during a render pass; console.log calls and effect bodies do
not run during render and are omitted. -/

/-- JavaScript values appearing in props and render output.  closure
represents a function value by the values it closes over; callV represents
the opaque result of a call into an external library or local helper;
addV, mulV and condV keep arithmetic and conditional expressions symbolic,
since no claim depends on their numeric value. -/
inductive JSVal where
  | undefinedV
  | str (s : String)
  | num (n : Int)
  | boolV (b : Bool)
  | arrV (xs : List JSVal)
  | objV (fields : List (String × JSVal))
  | closure (captures : List JSVal)
  | callV (fn : String) (args : List JSVal)
  | addV (a b : JSVal)
  | mulV (a b : JSVal)
  | condV (c t e : JSVal)

/-- A props object (or hook environment): string-keyed fields. -/
def PropsV := List (String × JSVal)

/-- Property read on a props object; an absent field reads as undefined. -/
def getV (props : PropsV) (k : String) : JSVal :=
  (List.lookup k props).getD .undefinedV

/-- View of a value as an array.  A map or filter over a non-array throws
in JavaScript before touching the props object, so reads are totalised
here; only the props component of a render result matters to the claims. -/
def asArr : JSVal → List JSVal
  | .arrV xs => xs
  | _ => []

/-- View of a value as a string. -/
def asStr : JSVal → String
  | .str s => s
  | _ => ""

/-- The includes method of String.prototype. -/
def strIncludes (s pat : String) : Bool := hasMarker pat.toList s.toList

/-- Rendered output of one evaluation of a component: host or component
elements with attribute values, literal text, interpolated values, and a
conditionally rendered child (the cond && node idiom). -/
inductive RNode where
  | text (s : String)
  | textV (v : JSVal)
  | elem (tag : String) (attrs : List (String × JSVal)) (children : List RNode)
  | condNode (cond : JSVal) (child : RNode)

namespace PropsVsState

end PropsVsState

namespace ClassVsFunctional

end ClassVsFunctional

namespace KeysInLists

end KeysInLists

namespace MinimizingReRenders

end MinimizingReRenders

namespace UnsafeHTML

end UnsafeHTML

namespace PassingProps

end PassingProps

namespace CallbackFunctions

end CallbackFunctions

namespace AdvancedPatterns

end AdvancedPatterns

namespace DerivedState

end DerivedState

namespace StaleClosures

end StaleClosures

namespace UseCallbackUseMemo

/-- Component List of the same file, lines 81-101: filteredItems memoised
from the items and filter props; each li closes over the stable handler
and the item. -/
def List (props env : PropsV) : RNode × PropsV :=
  let _ := env
  let filteredItems := (asArr (getV props "items")).filter fun i =>
    strIncludes (asStr i) (asStr (getV props "filter"))
  (.elem "ul" []
    (filteredItems.map fun item =>
      .elem "li" [("key", item), ("onClick", .closure [item])]
        [.textV item]), props)

end UseCallbackUseMemo

namespace CustomHooks

end CustomHooks

namespace React18Hooks

end React18Hooks

namespace ConcurrentHooks

end ConcurrentHooks

namespace AsyncContext

end AsyncContext

namespace PureComponentMemo

end PureComponentMemo

namespace SelectorsMemo

end SelectorsMemo

namespace Virtualization

end Virtualization

namespace ConcurrentRendering

end ConcurrentRendering

namespace Profiling

end Profiling

namespace ClassLifecycle

end ClassLifecycle

namespace Part007

end Part007

namespace Part000

end Part000

namespace Part002

end Part002

namespace Part003

end Part003

namespace Part006

end Part006

namespace Part009

end Part009

namespace Part010

end Part010

deriving instance DecidableEq for Except

/-! Helper lemmas about the JavaScript object-property operations. -/

/-- Looking up the key just assigned by setOwn yields the assigned value. -/
theorem lookup_setOwn_self (es : List (String × β)) (k : String)
    (v : β) : (setOwn es k v).lookup k = some v := by
  induction es with
  | nil => simp [setOwn, List.lookup]
  | cons hd t ih =>
      obtain ⟨k1, v1⟩ := hd
      by_cases hk : k1 = k
      · subst hk
        simp [setOwn, List.lookup]
      · have hb : (k == k1) = false := beq_eq_false_iff_ne.mpr (Ne.symm hk)
        simp [setOwn, hk, List.lookup, hb, ih]

/-- Method on, when the event already has an own callback array: the new
callback is appended. -/
theorem on_lookup_some (st : EventEmitter α) (ev : String) (cb : α)
    (l : List α) (h : st.events.lookup ev = some l) :
    st.on ev cb = .ok ⟨setOwn st.events ev (l ++ [cb])⟩ := by
  simp [EventEmitter.on, h]

/-- Method on, for a fresh event name that is not an inherited member: an
own array is created and the callback appended. -/
theorem on_lookup_none (st : EventEmitter α) (ev : String) (cb : α)
    (h : st.events.lookup ev = none) (hp : ev ∉ objectPrototypeKeys) :
    st.on ev cb = .ok ⟨setOwn (setOwn st.events ev []) ev [cb]⟩ := by
  simp [EventEmitter.on, h, hp, lookup_setOwn_self]

/-- Method on, at an unshadowed inherited Object.prototype member: push is
called on a non-array and a TypeError is thrown. -/
theorem on_proto_throws (st : EventEmitter α) (ev : String) (cb : α)
    (h : st.events.lookup ev = none) (hp : ev ∈ objectPrototypeKeys) :
    st.on ev cb = .error .typeError := by
  simp [EventEmitter.on, h, hp]

/-- Own entry accumulated by sequential registration. -/
theorem registerAll_lookup (ev : String) (cbs : List α) :
    ∀ (st st' : EventEmitter α) (l : List α),
      st.events.lookup ev = some l → registerAll st ev cbs = .ok st' →
      st'.events.lookup ev = some (l ++ cbs) := by
  induction cbs with
  | nil =>
      intro st st' l h hr
      simp only [registerAll, List.foldlM, Pure.pure, Except.pure,
        Except.ok.injEq] at hr
      subst hr
      simpa using h
  | cons c rest ih =>
      intro st st' l h hr
      simp only [registerAll, List.foldlM] at hr
      rw [on_lookup_some st ev c l h] at hr
      simp only [Bind.bind, Except.bind] at hr
      have hx : ((⟨setOwn st.events ev (l ++ [c])⟩ : EventEmitter α)).events.lookup ev
          = some (l ++ [c]) := lookup_setOwn_self _ _ _
      have := ih ⟨setOwn st.events ev (l ++ [c])⟩ st' (l ++ [c]) hx hr
      simpa [List.append_assoc] using this

/-! Claim C1 -/

/-- C1 counterexample: a concrete checkable round-trip law does hold of the
EventEmitter class defined by the repository, contradicting the claim that
no invariant or round-trip law belongs to the logic of the repository.  At
the concrete input of the Sender example: registering callback 0 for
newMessage on a fresh emitter and then emitting the Sender message invokes
exactly callback 0 with that message. -/
theorem c1_emitter_law_counterexample :
    ((⟨[]⟩ : EventEmitter Nat).on "newMessage" 0).map
        (fun st => (st.emit "newMessage" "Hello from Sender!").1.1) =
      .ok [(0, "Hello from Sender!")] := rfl

/-- C1 (amended): the snippets of the corpus mostly have no checkable logic
of their own, but the EventEmitter class of
src/2Component-Communication/2Callback-Functions-(Child-Parent).js is
original repository logic satisfying a round-trip law: for every event name
that does not collide with an inherited Object.prototype member, registering
a callback on a fresh emitter and then emitting a datum invokes exactly that
callback with that datum. -/
theorem c1_emitter_roundtrip (α δ : Type) (ev : String) (cb : α) (d : δ)
    (hp : ev ∉ objectPrototypeKeys) :
    ∃ st' : EventEmitter α,
      (EventEmitter.new : EventEmitter α).on ev cb = .ok st' ∧
      (st'.emit ev d).1.1 = [(cb, d)] := by
  refine ⟨⟨[(ev, [cb])]⟩, ?_, ?_⟩
  · have h0 : (EventEmitter.new : EventEmitter α).events.lookup ev = none := rfl
    have h1 := on_lookup_none (EventEmitter.new : EventEmitter α) ev cb h0 hp
    simpa [EventEmitter.new, setOwn] using h1
  · simp [EventEmitter.emit, List.lookup]

/-- C1 witness: the round-trip law instantiated at the Sender example. -/
theorem c1_emitter_roundtrip_witness :
    ∃ st' : EventEmitter Nat,
      (EventEmitter.new : EventEmitter Nat).on "newMessage" 0 = .ok st' ∧
      (st'.emit "newMessage" "Hello from Sender!").1.1 =
        [(0, "Hello from Sender!")] :=
  c1_emitter_roundtrip Nat String "newMessage" 0 "Hello from Sender!"
    (by decide)

/-! Claim C2 -/

/-- A successful registration via on always yields a state different from
the one before (the own entry for the event strictly grows or appears). -/
theorem on_mutates (α : Type) (st st' : EventEmitter α) (ev : String)
    (cb : α) (h : st.on ev cb = .ok st') : st' ≠ st := by
  intro he
  cases hl : st.events.lookup ev with
  | some l =>
      rw [on_lookup_some st ev cb l hl] at h
      have hst : st' = ⟨setOwn st.events ev (l ++ [cb])⟩ := (Except.ok.inj h).symm
      have h2 : st'.events.lookup ev = some (l ++ [cb]) := by
        rw [hst]
        exact lookup_setOwn_self _ _ _
      rw [he, hl] at h2
      have h3 : l = l ++ [cb] := Option.some.inj h2
      have h4 := congrArg List.length h3
      simp at h4
  | none =>
      by_cases hp : ev ∈ objectPrototypeKeys
      · rw [on_proto_throws st ev cb hl hp] at h
        exact Except.noConfusion h
      · rw [on_lookup_none st ev cb hl hp] at h
        have hst : st' = ⟨setOwn (setOwn st.events ev []) ev [cb]⟩ :=
          (Except.ok.inj h).symm
        have h2 : st'.events.lookup ev = some [cb] := by
          rw [hst]
          exact lookup_setOwn_self _ _ _
        rw [he, hl] at h2
        exact Option.noConfusion h2

/-- PubSub.subscribe computes exactly as EventEmitter.on over the same
events table (the two method bodies are textually identical). -/
theorem subscribe_as_on (p : PubSub α) (ev : String) (h : α) :
    p.subscribe ev h =
      (EventEmitter.on ⟨p.events⟩ ev h).map
        (fun e => (⟨e.events⟩ : PubSub α)) := by
  unfold PubSub.subscribe EventEmitter.on
  cases hl : p.events.lookup ev with
  | some l => simp [hl, Except.map]
  | none =>
      by_cases hp : ev ∈ objectPrototypeKeys
      · simp [hl, hp, Except.map]
      · simp [hl, hp, Except.map, lookup_setOwn_self]

/-- C2 counterexample: the top-level binding globalEmitter (line 163 of
2Callback-Functions-(Child-Parent).js) is a mutable object created and
shared by the code of the repository: registering a callback changes its
state, so it is not a function definition nor an immutable constant. -/
theorem c2_global_emitter_counterexample :
    globalEmitter.on "newMessage" 0 ≠ .ok globalEmitter := by decide

/-- C2 (amended): the corpus does contain top-level mutable objects created
by repository-defined classes and mutated by repository code — globalEmitter
(EventEmitter), and the pattern-demo instances mediator (Mediator), subject
(Subject) and pubsub (PubSub) of 9Advanced-Patterns.js, the latter three
mutated by module-level register/subscribe calls.  Each registration
operation moves the instance to a different state: on and
PubSub.subscribe whenever they succeed, Mediator.register at any event name
with no own entry, and Subject.subscribe always. -/
theorem c2_top_level_mutables (α : Type) :
    (∀ (st st' : EventEmitter α) (ev : String) (cb : α),
        st.on ev cb = .ok st' → st' ≠ st) ∧
    (∀ (m : Mediator α) (ev : String) (h : α),
        m.handlers.lookup ev = none → m.register ev h ≠ m) ∧
    (∀ (s : Subject α) (obs : α), s.subscribe obs ≠ s) ∧
    (∀ (p p' : PubSub α) (ev : String) (h : α),
        p.subscribe ev h = .ok p' → p' ≠ p) := by
  refine ⟨fun st st' ev cb h => on_mutates α st st' ev cb h, ?_, ?_, ?_⟩
  · intro m ev h hl he
    have h2 : (m.register ev h).handlers.lookup ev = some h :=
      lookup_setOwn_self _ _ _
    rw [he] at h2
    rw [hl] at h2
    exact Option.noConfusion h2
  · intro s obs he
    have h2 := congrArg (fun t : Subject α => t.observers.length) he
    simp [Subject.subscribe] at h2
  · intro p p' ev h hs hpe
    rw [subscribe_as_on] at hs
    cases ho : EventEmitter.on (⟨p.events⟩ : EventEmitter α) ev h with
    | error e =>
        rw [ho] at hs
        simp [Except.map] at hs
    | ok e =>
        rw [ho] at hs
        simp [Except.map] at hs
        have hne := on_mutates α ⟨p.events⟩ e ev h ho
        apply hne
        obtain ⟨evs⟩ := e
        obtain ⟨pevs⟩ := p
        simp_all

/-- C2 witness: mutation observed concretely on each of the four classes,
starting from the freshly constructed top-level instances. -/
theorem c2_top_level_mutables_witness :
    (⟨[("newMessage", [0])]⟩ : EventEmitter Nat) ≠ globalEmitter ∧
    Mediator.register (⟨[]⟩ : Mediator Nat) "login" 7 ≠ ⟨[]⟩ ∧
    Subject.subscribe (⟨[]⟩ : Subject Nat) 1 ≠ ⟨[]⟩ ∧
    (⟨[("chat", [1])]⟩ : PubSub Nat) ≠ (⟨[]⟩ : PubSub Nat) :=
  ⟨(c2_top_level_mutables Nat).1 globalEmitter ⟨[("newMessage", [0])]⟩
      "newMessage" 0 (by decide),
   (c2_top_level_mutables Nat).2.1 ⟨[]⟩ "login" 7 rfl,
   (c2_top_level_mutables Nat).2.2.1 ⟨[]⟩ 1,
   (c2_top_level_mutables Nat).2.2.2 ⟨[]⟩ ⟨[("chat", [1])]⟩ "chat" 1
     (by decide)⟩

/-! Claim C3 -/

/-- C3 counterexample: not every source file carries a question-and-answer
footer; e.g. the selectors-and-memoization file cited by the claim itself
has none. -/
theorem c3_footer_counterexample :
    ¬ ∀ f ∈ srcFiles, hasQAFooter f = true := by decide

/-- C3 (amended): 31 of the 38 source files carry a line headed with the
question-and-answer marker; exactly the seven files listed here do not. -/
theorem c3_footer_census :
    (srcFiles.filter fun f => ! hasQAFooter f).map (fun f => f.name) =
      ["4React-Hooks-(DeepDive)/9Performance-Concurrent-Rendering-With-Hooks.js",
       "5Rendering-And-Performance/10Security-Preventing-Unsafe-Rehydration-And-DOM-Injections.js",
       "5Rendering-And-Performance/2PureComponent-Vs-Memoization-Vs-UseCallback.js",
       "5Rendering-And-Performance/3Avoiding-Unnecessary-Re-Renders-With-Selectors-And-Memoization.js",
       "5Rendering-And-Performance/4Virtualization-(React-Window-And-React-Virtualized).js",
       "All-ReactJS-Interview-Prepration-Topics.js",
       "unnamed/part_005"] ∧
    srcFiles.length = 38 := by
  refine ⟨?_, ?_⟩ <;> rfl

/-! Claim C4 -/

/-- C4 counterexample: not every import specifier of the corpus names an
external package: relative specifiers occur (the dynamic imports of the
profiling file and the App import of unnamed/part_002). -/
theorem c4_imports_counterexample :
    ¬ ∀ f ∈ srcFiles, ∀ s ∈ f.imports, isRelativeSpecifier s = false := by
  decide

/-- C4 (amended): every import specifier of the corpus is a bare external
package specifier except five relative ones, all listed here; and none of
the five resolves to a file of the repository, so no file imports another
file of the repository. -/
theorem c4_imports_census :
    ((srcFiles.filter fun f =>
        ! (f.imports.all fun s => ! isRelativeSpecifier s)).map
      fun f => (f.name, f.imports.filter fun s => isRelativeSpecifier s)) =
      [("5Rendering-And-Performance/7Profiling-With-React-DevTools-Profiler-And-Flamegraphs.js",
        ["./Profile", "./SpendingChart", "./Dashboard", "./Settings"]),
       ("unnamed/part_002", ["./App.js"])] ∧
    ((srcFiles.map fun f =>
        (f.imports.filter fun s => isRelativeSpecifier s).map
          fun s => resolveRel f.name s).flatten =
      ["5Rendering-And-Performance/Profile.js",
       "5Rendering-And-Performance/SpendingChart.js",
       "5Rendering-And-Performance/Dashboard.js",
       "5Rendering-And-Performance/Settings.js",
       "unnamed/App.js"]) ∧
    (["5Rendering-And-Performance/Profile.js",
      "5Rendering-And-Performance/SpendingChart.js",
      "5Rendering-And-Performance/Dashboard.js",
      "5Rendering-And-Performance/Settings.js",
      "unnamed/App.js"].all fun t =>
        srcFiles.all fun f => f.name != t) = true := by
  refine ⟨?_, ?_, ?_⟩ <;> rfl

/-! Claim C5 -/

/-- C5 counterexample: operations of the repository are not all total: at
the inherited property name constructor, EventEmitter.on throws a TypeError
on a fresh emitter, and useUserName throws a TypeError at the null context
value of a missing provider. -/
theorem c5_totality_counterexample :
    (⟨[]⟩ : EventEmitter Nat).on "constructor" 0 = .error .typeError ∧
    useUserName none = .error .typeError := ⟨rfl, rfl⟩

/-- C5 (amended): EventEmitter.on returns normally for every event name
that is not an inherited Object.prototype member (from any emitter state),
and useUserName returns user.name for every non-null context value; the
exceptions are exactly the inherited-member event names on an emitter that
has not shadowed them, and the null context value. -/
theorem c5_totality_amended (α : Type) :
    (∀ (st : EventEmitter α) (ev : String) (cb : α),
        ev ∉ objectPrototypeKeys → ∃ st', st.on ev cb = .ok st') ∧
    (∀ v : UserContextValue, useUserName (some v) = .ok v.user.name) := by
  constructor
  · intro st ev cb hp
    cases hl : st.events.lookup ev with
    | some l => exact ⟨_, on_lookup_some st ev cb l hl⟩
    | none => exact ⟨_, on_lookup_none st ev cb hl hp⟩
  · intro v
    rfl

/-- C5 witness: a normal return of on at a fresh non-colliding event name,
and of useUserName at the UserProvider initial value. -/
theorem c5_totality_witness :
    (∃ st', (⟨[]⟩ : EventEmitter Nat).on "newMessage" 0 = .ok st') ∧
    useUserName (some ⟨⟨"Avi", 25, "dark"⟩⟩) = .ok "Avi" :=
  ⟨(c5_totality_amended Nat).1 ⟨[]⟩ "newMessage" 0 (by decide),
   (c5_totality_amended Nat).2 ⟨⟨"Avi", 25, "dark"⟩⟩⟩

/-! Claim C6 -/

/-- C7: if callbacks were registered for an event (in order, via on) on an
emitter with no own entry for that event, emit invokes exactly those
callbacks, once each, in registration order, each with the emitted datum;
and emit at an event with no own entry invokes no callback and leaves the
events object unchanged. -/
theorem c7_emit_spec (α δ : Type) :
    (∀ (st st' : EventEmitter α) (ev : String) (cbs : List α) (d : δ),
        st.events.lookup ev = none → registerAll st ev cbs = .ok st' →
        (st'.emit ev d).1.1 = cbs.map fun c => (c, d)) ∧
    (∀ (st : EventEmitter α) (ev : String) (d : δ),
        st.events.lookup ev = none →
        (st.emit ev d).1.1 = [] ∧ (st.emit ev d).2 = st) := by
  constructor
  · intro st st' ev cbs d h hr
    cases cbs with
    | nil =>
        simp only [registerAll, List.foldlM, Pure.pure, Except.pure,
          Except.ok.injEq] at hr
        subst hr
        by_cases hp : ev ∈ objectPrototypeKeys <;>
          simp [EventEmitter.emit, h, hp]
    | cons c rest =>
        by_cases hp : ev ∈ objectPrototypeKeys
        · simp only [registerAll, List.foldlM] at hr
          rw [on_proto_throws st ev c h hp] at hr
          simp [Bind.bind, Except.bind] at hr
        · simp only [registerAll, List.foldlM] at hr
          rw [on_lookup_none st ev c h hp] at hr
          simp only [Bind.bind, Except.bind] at hr
          have hx : ((⟨setOwn (setOwn st.events ev []) ev [c]⟩ :
              EventEmitter α)).events.lookup ev = some [c] :=
            lookup_setOwn_self _ _ _
          have hst := registerAll_lookup ev rest
            ⟨setOwn (setOwn st.events ev []) ev [c]⟩ st' [c] hx hr
          simp [EventEmitter.emit, hst]
  · intro st ev d h
    by_cases hp : ev ∈ objectPrototypeKeys <;>
      simp [EventEmitter.emit, h, hp]

/-- C7 witness: two registered callbacks invoked in order with the datum,
and an emit at an unregistered event doing nothing. -/
theorem c7_emit_spec_witness :
    ((⟨[("newMessage", [1, 2])]⟩ : EventEmitter Nat).emit "newMessage"
        "hi").1.1 = [(1, "hi"), (2, "hi")] ∧
    ((⟨[]⟩ : EventEmitter Nat).emit "ping" "hi").1.1 = [] ∧
    ((⟨[]⟩ : EventEmitter Nat).emit "ping" "hi").2 =
      (⟨[]⟩ : EventEmitter Nat) :=
  ⟨(c7_emit_spec Nat String).1 ⟨[]⟩ ⟨[("newMessage", [1, 2])]⟩ "newMessage"
      [1, 2] "hi" rfl (by decide),
   ((c7_emit_spec Nat String).2 ⟨[]⟩ "ping" "hi" rfl).1,
   ((c7_emit_spec Nat String).2 ⟨[]⟩ "ping" "hi" rfl).2⟩

/-! Claim C8 -/

/-- Rounding to double precision is the identity on integers of magnitude
at most 2 ^ 53 (every such integer is exactly representable). -/
theorem roundToDouble_eq_self (x : Int) (h : x.natAbs ≤ 2 ^ 53) :
    roundToDouble x = x := by
  have h1 : roundNatDouble x.natAbs = x.natAbs := by
    rw [roundNatDouble, if_pos h]
  by_cases hx : x < 0
  · rw [roundToDouble, if_pos hx, h1]
    omega
  · rw [roundToDouble, if_neg hx, h1]
    omega

/-- C8 counterexample: at count = 2 ^ 53 = 9007199254740992 (an
integer-valued double) the JavaScript increment rounds 2 ^ 53 + 1 back to
2 ^ 53 (tie to even), so increment-then-decrement returns 2 ^ 53 - 1 and
the round-trip law fails as universally stated. -/
theorem c8_reducer_counterexample :
    (reducer (reducer ⟨9007199254740992⟩ ⟨"increment"⟩) ⟨"decrement"⟩).count ≠
      (9007199254740992 : Int) := by decide

/-- C8 (amended): for every state whose count has magnitude at most
2 ^ 53 - 1 (a safe integer, where double arithmetic is exact), increment
then decrement preserves count; reset yields the zero state and is
idempotent, and any action whose type is none of increment, decrement,
reset returns the state unchanged, both for every state. -/
theorem c8_reducer_laws :
    (∀ s : CounterState, s.count.natAbs ≤ 2 ^ 53 - 1 →
        (reducer (reducer s ⟨"increment"⟩) ⟨"decrement"⟩).count = s.count) ∧
    (∀ s : CounterState,
        reducer s ⟨"reset"⟩ = ⟨0⟩ ∧
        reducer (reducer s ⟨"reset"⟩) ⟨"reset"⟩ = reducer s ⟨"reset"⟩) ∧
    (∀ (s : CounterState) (a : Action),
        a.type ≠ "increment" → a.type ≠ "decrement" → a.type ≠ "reset" →
        reducer s a = s) := by
  refine ⟨?_, ?_, ?_⟩
  · intro s h
    have e1 : reducer s ⟨"increment"⟩ = ⟨roundToDouble (s.count + 1)⟩ := rfl
    have h2 : roundToDouble (s.count + 1) = s.count + 1 :=
      roundToDouble_eq_self _ (by omega)
    have e2 : reducer ⟨s.count + 1⟩ ⟨"decrement"⟩ =
        ⟨roundToDouble (s.count + 1 - 1)⟩ := rfl
    rw [e1, h2, e2]
    show roundToDouble (s.count + 1 - 1) = s.count
    have h3 : s.count + 1 - 1 = s.count := by omega
    rw [h3]
    exact roundToDouble_eq_self _ (by omega)
  · intro s
    exact ⟨rfl, rfl⟩
  · intro s a h1 h2 h3
    obtain ⟨t⟩ := a
    unfold reducer
    split <;> simp_all

/-- C8 witness: the laws at count 5 and the action type other. -/
theorem c8_reducer_laws_witness :
    (reducer (reducer ⟨5⟩ ⟨"increment"⟩) ⟨"decrement"⟩).count = (5 : Int) ∧
    reducer ⟨5⟩ ⟨"reset"⟩ = ⟨0⟩ ∧
    reducer ⟨5⟩ ⟨"other"⟩ = ⟨5⟩ :=
  ⟨c8_reducer_laws.1 ⟨5⟩ (by decide), (c8_reducer_laws.2.1 ⟨5⟩).1,
   c8_reducer_laws.2.2 ⟨5⟩ ⟨"other"⟩ (by decide) (by decide) (by decide)⟩

/-! Claim C9 -/

/-- C9: the top-level reducer of
src/3State-And-LifeCycles/1UseState-UseReducer-When-To-Use-Which.js and the
reducer inside CounterWithReducer of src/unnamed/part_004 agree on every
state and every action. -/
theorem c9_reducers_extensionally_equal :
    ∀ (s : CounterState) (a : Action),
      reducer s a = CounterWithReducer.reducer s a :=
  fun _ _ => rfl

end ReactNotes
